import Mathlib

/-!
Verification of the engagement/statistics core of a Telegram channel
scraper.  The Python sources (`parser.py`, `scraper.py`, `main.py`) are
shallowly embedded below: pure metric functions become Lean functions on
`Int`/`ℚ`, the database session becomes an explicit list of stored rows,
and the external message source becomes an explicit argument.
-/

namespace FFScraper

/-! ## Rounding (Python `round`, banker's rounding, to `n` decimal places) -/

/-- Round a rational to the nearest integer, ties to even, as Python's
builtin `round` does. -/
def roundHalfEven (x : ℚ) : ℤ :=
  let f : ℤ := ⌊x⌋
  let frac : ℚ := x - f
  if frac < 1/2 then f
  else if 1/2 < frac then f + 1
  else if f % 2 = 0 then f else f + 1

/-- Python's `round(x, n)`: round to `n` decimal places, ties to even. -/
def roundDec (n : ℕ) (x : ℚ) : ℚ :=
  (roundHalfEven (x * (10 ^ n : ℚ)) : ℚ) / (10 ^ n : ℚ)

theorem roundHalfEven_intCast (k : ℤ) : roundHalfEven (k : ℚ) = k := by
  simp [roundHalfEven]

theorem roundDec_zero (n : ℕ) : roundDec n 0 = 0 := by
  have h : roundHalfEven (0 : ℚ) = (0 : ℤ) := by
    simpa using roundHalfEven_intCast 0
  simp [roundDec, h]

/-! ## Reaction Classifier (`get_total_reactions` in `parser.py` / `scraper.py`)

A reaction entry carries an optional reaction object, classified in the
source by its runtime type name, and a count (`getattr(r, "count", 0) or 0`).
-/

/-- One entry of `message.reactions.results`: the reaction object is
represented by its runtime type name (`none` when the entry carries no
reaction object), together with its count. -/
structure ReactionResult where
  reaction : Option String
  count : Int
deriving Repr, DecidableEq

/-- Reaction type names skipped by the classifier
(`reaction_type in ("ReactionPaid", "ReactionCustomEmoji")`). -/
def isPaidKind (k : String) : Bool :=
  k = "ReactionPaid" || k = "ReactionCustomEmoji"

/-- Classification loop of `get_total_reactions` in `parser.py`
(lines 88-111): returns the pair `(total_free, total_paid)`.  Entries with
no reaction object count as free; `ReactionPaid` / `ReactionCustomEmoji`
entries count as paid; every other kind counts as free. -/
def classifyReactions : List ReactionResult → Int × Int
  | [] => (0, 0)
  | r :: rest =>
    let acc := classifyReactions rest
    match r.reaction with
    | none => (r.count + acc.1, acc.2)
    | some k => if isPaidKind k then (acc.1, r.count + acc.2) else (r.count + acc.1, acc.2)

/-- Sum of the counts of all entries of a reaction batch. -/
def sumCounts (l : List ReactionResult) : Int :=
  (l.map (fun r => r.count)).sum

/-- Embedding of `get_total_reactions` (identical in `parser.py` and
`scraper.py`): `none` models a message whose `reactions` attribute is
falsy or whose `results` attribute is missing/`None`; an empty result
list is likewise returned as 0. -/
def get_total_reactions (reactions : Option (List ReactionResult)) : Int :=
  match reactions with
  | none => 0
  | some results => if results.isEmpty then 0 else (classifyReactions results).1

/-! ## Engagement Calculator (`calculate_engagement`) -/

/-- A freshly fetched Telegram message, as consumed by the metric
functions and the upsert loop.  `replies` is the already-extracted
`message.replies.replies` attribute (`none` when the message has no
replies object or the attribute is `None`); `reactions` is the raw
reaction result list. -/
structure TelegramMsgIn where
  id : Int
  date : Option Int
  text : Option String
  views : Option Int
  forwards : Option Int
  replies : Option Int
  reactions : Option (List ReactionResult)
deriving Repr, DecidableEq

/-- Embedding of `calculate_engagement` (identical in `parser.py` and
`scraper.py`): nullable inputs coalesce to 0; the result pair is
`(engagement_count, engagement_rate)` with the rate rounded to 4 decimal
places. -/
def calculate_engagement (m : TelegramMsgIn) (total_reactions : Int) : Int × ℚ :=
  let views := m.views.getD 0
  let forwards := m.forwards.getD 0
  let replies := m.replies.getD 0
  let engagement_count := total_reactions + forwards + replies
  let engagement_rate : ℚ :=
    if 0 < views then (engagement_count : ℚ) / (views : ℚ) * 100 else 0
  (engagement_count, roundDec 4 engagement_rate)

/-- Python `len(text) if text else 0` for an optional message text. -/
def postLength (t : Option String) : ℕ :=
  (t.map String.length).getD 0

/-! ## Upsert Engine (`scrape_channel` in `scraper.py`)

The database is an explicit list of stored `telegram_messages` rows; the
Telegram fetch is an explicit argument. -/

/-- A stored `telegram_messages` row (`models.TelegramMessage`).
`channel_id` is the owning channel's database id; `created_at` is the
insertion timestamp. -/
structure StoredMsg where
  channel_id : Int
  message_id : Int
  date : Option Int
  text : Option String
  views : Option Int
  forwards : Option Int
  replies : Option Int
  total_reactions : Int
  engagement_count : Int
  engagement_rate : ℚ
  post_length : ℕ
  created_at : Int
deriving Repr, DecidableEq

/-- Composite-key test used by the lookup
`TelegramMessage.channel_id == channel.id and TelegramMessage.message_id == message.id`. -/
def keyMatches (chId msgId : Int) (r : StoredMsg) : Bool :=
  r.channel_id == chId && r.message_id == msgId

/-- The `scalar_one_or_none` lookup by composite key (first matching row). -/
def findMsg (db : List StoredMsg) (chId msgId : Int) : Option StoredMsg :=
  db.find? (keyMatches chId msgId)

/-- Replace the first row matching the composite key by `f` of that row;
all other rows are untouched. -/
def updateFirst (chId msgId : Int) (f : StoredMsg → StoredMsg) :
    List StoredMsg → List StoredMsg
  | [] => []
  | r :: rest =>
    if keyMatches chId msgId r then f r :: rest
    else r :: updateFirst chId msgId f rest

/-- The in-place update branch of `scrape_channel` (lines 165-174 of
`scraper.py`): overwrite exactly the seven mutable metric fields from the
freshly computed values. -/
def applyMetricsUpdate (r : StoredMsg) (m : TelegramMsgIn) : StoredMsg :=
  let total_reactions := get_total_reactions m.reactions
  let eng := calculate_engagement m total_reactions
  { r with
    views := m.views
    forwards := m.forwards
    replies := m.replies
    total_reactions := total_reactions
    engagement_count := eng.1
    engagement_rate := eng.2
    post_length := postLength m.text }

/-- The insert branch of `scrape_channel` (lines 176-191 of `scraper.py`):
a brand new row built from the fetched message. -/
def newStoredMsg (chId : Int) (now : Int) (m : TelegramMsgIn) : StoredMsg :=
  let total_reactions := get_total_reactions m.reactions
  let eng := calculate_engagement m total_reactions
  { channel_id := chId
    message_id := m.id
    date := m.date
    text := m.text
    views := m.views
    forwards := m.forwards
    replies := m.replies
    total_reactions := total_reactions
    engagement_count := eng.1
    engagement_rate := eng.2
    post_length := postLength m.text
    created_at := now }

/-- Processing of a single fetched message inside `scrape_channel`'s
loop: look up by composite key, update in place if present (second
component `true`), append a new row otherwise (second component
`false`). -/
def processMessage (chId now : Int) (db : List StoredMsg) (m : TelegramMsgIn) :
    List StoredMsg × Bool :=
  match findMsg db chId m.id with
  | some _ => (updateFirst chId m.id (fun r => applyMetricsUpdate r m) db, true)
  | none => (db ++ [newStoredMsg chId now m], false)

/-- The full per-channel message loop of `scrape_channel`: returns the new
row list together with `(messages_scraped, messages_updated)`. -/
def scrapeBatch (chId now : Int) (db : List StoredMsg) :
    List TelegramMsgIn → List StoredMsg × ℕ × ℕ
  | [] => (db, 0, 0)
  | m :: rest =>
    let step := processMessage chId now db m
    let acc := scrapeBatch chId now step.1 rest
    if step.2 then (acc.1, acc.2.1, acc.2.2 + 1)
    else (acc.1, acc.2.1 + 1, acc.2.2)

/-! ## Per-channel scrape with error isolation -/

/-- A stored `telegram_channels` row (the fields `scraper.py` reads). -/
structure Channel where
  id : Int
  channel_id : Int
  title : String
  is_active : Bool
  subscriber_count : Option Int
  last_scraped_at : Option Int
deriving Repr, DecidableEq

/-- The whole relational store: channel rows plus message rows. -/
structure DbState where
  channels : List Channel
  messages : List StoredMsg
deriving Repr, DecidableEq

/-- Outcome of iterating `client.iter_messages`: the messages delivered
before the stream ended, and `some reason` when the iteration (or any
processing step after it) raised instead of finishing. -/
structure FetchResult where
  delivered : List TelegramMsgIn
  failure : Option String
deriving Repr, DecidableEq

/-- Return value of `scrape_channel`. -/
structure ChannelScrapeResult where
  success : Bool
  messages_scraped : ℕ
  messages_updated : ℕ
  error : Option String
deriving Repr, DecidableEq

/-- Embedding of `scrape_channel`: on success, the processed batch plus
the channel's `last_scraped_at` refresh are committed as one unit; on an
exception, `db.rollback()` discards every pending write of the batch and
the stored state is returned unchanged. -/
def scrape_channel (ch : Channel) (fetch : FetchResult) (now : Int)
    (db : DbState) : DbState × ChannelScrapeResult :=
  let batch := scrapeBatch ch.id now db.messages fetch.delivered
  match fetch.failure with
  | some e => (db, ⟨false, 0, 0, some e⟩)
  | none =>
    ({ channels := db.channels.map
         (fun c => if c.id == ch.id then { c with last_scraped_at := some now } else c)
       messages := batch.1 },
     ⟨true, batch.2.1, batch.2.2, none⟩)

/-- Summary dictionary returned by the run-level entry points. -/
structure ScrapeSummary where
  success : Bool
  channels_processed : ℕ
  total_messages_scraped : ℕ
  total_messages_updated : ℕ
  errors : List String
deriving Repr, DecidableEq

/-- Embedding of `get_active_channels`. -/
def get_active_channels (db : DbState) : List Channel :=
  db.channels.filter (fun c => c.is_active)

/-- The shared channel loop of `scrape_all_active_channels` and
`scrape_specific_channels`: scrape each channel in sequence, accumulating
new/updated totals on success and a `"title: reason"` entry on failure. -/
def scrapeChannelsLoop (fetch : Channel → FetchResult) (now : Int)
    (db : DbState) : List Channel → DbState × ℕ × ℕ × List String
  | [] => (db, 0, 0, [])
  | c :: rest =>
    let step := scrape_channel c (fetch c) now db
    let acc := scrapeChannelsLoop fetch now step.1 rest
    if step.2.success then
      (acc.1, step.2.messages_scraped + acc.2.1, step.2.messages_updated + acc.2.2.1, acc.2.2.2)
    else
      (acc.1, acc.2.1, acc.2.2.1,
        (c.title ++ ": " ++ (step.2.error.getD "")) :: acc.2.2.2)

/-- Embedding of `scrape_all_active_channels`. -/
def scrape_all_active_channels (fetch : Channel → FetchResult) (now : Int)
    (db : DbState) : DbState × ScrapeSummary :=
  let channels := get_active_channels db
  if channels.isEmpty then
    (db, ⟨false, 0, 0, 0, ["No active channels found"]⟩)
  else
    let acc := scrapeChannelsLoop fetch now db channels
    (acc.1, ⟨acc.2.2.2.isEmpty, channels.length, acc.2.1, acc.2.2.1, acc.2.2.2⟩)

/-- The channel selection of `scrape_specific_channels`: active channels
whose database id is among the requested ids. -/
def specificChannels (db : DbState) (channel_ids : List Int) : List Channel :=
  db.channels.filter (fun c => channel_ids.contains c.id && c.is_active)

/-- Embedding of `scrape_specific_channels`. -/
def scrape_specific_channels (fetch : Channel → FetchResult) (now : Int)
    (db : DbState) (channel_ids : List Int) : DbState × ScrapeSummary :=
  let channels := specificChannels db channel_ids
  if channels.isEmpty then
    (db, ⟨false, 0, 0, 0, ["No matching active channels found"]⟩)
  else
    let acc := scrapeChannelsLoop fetch now db channels
    (acc.1, ⟨acc.2.2.2.isEmpty, channels.length, acc.2.1, acc.2.2.1, acc.2.2.2⟩)

/-! ## Median (Python's `statistics.median` / Postgres `percentile_cont(0.5)`)

Both compute the 50th percentile with linear interpolation: sort
ascending, take the middle element for odd length, the midpoint of the two
middle elements for even length. -/

/-- Embedding of `statistics.median` over rationals (the sources never
call it on an empty list; we return 0 there). -/
def statistics_median (l : List ℚ) : ℚ :=
  let s := l.insertionSort (fun a b => a ≤ b)
  let n := s.length
  if n % 2 = 1 then s.getD (n / 2) 0
  else (s.getD (n / 2 - 1) 0 + s.getD (n / 2) 0) / 2

/-! ## Stable descending sort (Python `list.sort(key=…, reverse=True)`)

Python's sort is stable; with `reverse=True` elements with equal keys keep
their original relative order.  Insertion from the left, placing each new
element after every already-placed element of greater-or-equal key, has
exactly this behaviour. -/

/-- Insert `x` into a descending-sorted list, after all elements whose key
is greater than or equal to `key x`. -/
def insertDescBy {α β : Type} [LinearOrder β] (key : α → β) (x : α) :
    List α → List α
  | [] => [x]
  | y :: ys => if key x ≤ key y then y :: insertDescBy key x ys else x :: y :: ys

/-- Stable descending sort by `key`. -/
def sortDescBy {α β : Type} [LinearOrder β] (key : α → β) (l : List α) :
    List α :=
  l.foldl (fun acc x => insertDescBy key x acc) []

/-! ## Channel Aggregator, parser side (`calculate_channel_stats`) -/

/-- One message dictionary as consumed by `calculate_channel_stats` and
`collect_top_posts` (all metric entries may be `None`). -/
structure PMsg where
  channel : String
  id : Int
  date : Option Int
  text : Option String
  views : Option Int
  forwards : Option Int
  replies : Option Int
  total_reactions : Option Int
  engagement_count : Option Int
  engagement_rate : Option ℚ
  post_length : Option Int
deriving Repr, DecidableEq

/-- One element of `channel_data_list` (output of `export_channel`). -/
structure ChannelData where
  channel_name : String
  subscribers : Int
  messages : List PMsg
deriving Repr, DecidableEq

/-- One output row of `calculate_channel_stats`. -/
structure ChannelStatsRow where
  channel : String
  subscribers : Int
  posts_analyzed : ℕ
  median_post_length : ℚ
  median_views : ℚ
  median_reactions : ℚ
  median_forwards : ℚ
  median_comments : ℚ
  median_engagement_count : ℚ
  median_engagement_rate : ℚ
deriving Repr, DecidableEq

/-- Python `statistics.median(lst) if lst else 0`. -/
def medianOrZero (l : List ℚ) : ℚ :=
  if l.isEmpty then 0 else statistics_median l

/-- The `views_list` comprehension: keep `m["views"]` when truthy
(not `None` and nonzero). -/
def truthyViews (m : PMsg) : Option ℚ :=
  match m.views with
  | some v => if v = 0 then none else some (v : ℚ)
  | none => none

/-- The body of `calculate_channel_stats`' per-channel loop: `none` when
the channel has no message with positive views (the `continue` branch),
otherwise the statistics row. -/
def channelStatsRow (cd : ChannelData) : Option ChannelStatsRow :=
  let valid := cd.messages.filter (fun m => decide (0 < m.views.getD 0))
  if valid.isEmpty then none
  else some
    { channel := cd.channel_name
      subscribers := cd.subscribers
      posts_analyzed := valid.length
      median_post_length :=
        medianOrZero ((valid.filterMap (fun m => m.post_length)).map (fun v => (v : ℚ)))
      median_views := medianOrZero (valid.filterMap truthyViews)
      median_reactions :=
        medianOrZero ((valid.filterMap (fun m => m.total_reactions)).map (fun v => (v : ℚ)))
      median_forwards :=
        medianOrZero ((valid.filterMap (fun m => m.forwards)).map (fun v => (v : ℚ)))
      median_comments :=
        medianOrZero ((valid.filterMap (fun m => m.replies)).map (fun v => (v : ℚ)))
      median_engagement_count :=
        medianOrZero ((valid.filterMap (fun m => m.engagement_count)).map (fun v => (v : ℚ)))
      median_engagement_rate :=
        medianOrZero (valid.filterMap (fun m => m.engagement_rate)) }

/-- Embedding of `calculate_channel_stats`: build one row per channel that
has valid messages (channels without any are skipped by `continue`), then
sort by subscriber count, highest first. -/
def calculate_channel_stats (channel_data_list : List ChannelData) :
    List ChannelStatsRow :=
  sortDescBy (fun r => r.subscribers) (channel_data_list.filterMap channelStatsRow)

/-! ## Ranking Engine (`collect_top_posts` in `parser.py`) -/

/-- One scored entry of `collect_top_posts`. -/
structure ScoredPost where
  channel : String
  id : Int
  date : Option Int
  text_preview : Option String
  views : Int
  forwards : Int
  replies : Int
  total_reactions : Int
  engagement_count : Int
  engagement_rate : ℚ
  reactions_per_view : ℚ
deriving Repr, DecidableEq

/-- The `text_preview` truncation: keep at most 120 characters, appending
an ellipsis when truncated. -/
def textPreview (t : Option String) : Option String :=
  match t with
  | some s => if 120 < s.length then some (String.mk (s.toList.take 120) ++ "…") else some s
  | none => none

/-- The per-message body of `collect_top_posts`' loop: `none` when the
post is skipped (`views <= 0 or engagement_count <= 0`), otherwise the
scored entry. -/
def scoreMsg (msg : PMsg) : Option ScoredPost :=
  let views := msg.views.getD 0
  let reactions := msg.total_reactions.getD 0
  let engagement_count := msg.engagement_count.getD 0
  let engagement_rate := msg.engagement_rate.getD 0
  if views ≤ 0 ∨ engagement_count ≤ 0 then none
  else some
    { channel := msg.channel
      id := msg.id
      date := msg.date
      text_preview := textPreview msg.text
      views := views
      forwards := msg.forwards.getD 0
      replies := msg.replies.getD 0
      total_reactions := reactions
      engagement_count := engagement_count
      engagement_rate := engagement_rate
      reactions_per_view :=
        roundDec 6 (if 0 < views then (reactions : ℚ) / (views : ℚ) else 0) }

/-- The sort metric chosen by `collect_top_posts`' `sort_by` argument. -/
inductive RankMetric
  | engagement_rate
  | engagement_count
  | total_reactions
  | views
  | reactions_per_view
deriving Repr, DecidableEq

/-- Value of the chosen metric on a scored entry. -/
def metricKey : RankMetric → ScoredPost → ℚ
  | RankMetric.engagement_rate, p => p.engagement_rate
  | RankMetric.engagement_count, p => (p.engagement_count : ℚ)
  | RankMetric.total_reactions, p => (p.total_reactions : ℚ)
  | RankMetric.views, p => (p.views : ℚ)
  | RankMetric.reactions_per_view, p => p.reactions_per_view

/-- Embedding of `collect_top_posts`: score and filter the pool, sort
descending by the chosen metric (stable), return the first `top_n`. -/
def collect_top_posts (messages_all : List PMsg) (top_n : ℕ)
    (sort_by : RankMetric) : List ScoredPost :=
  (sortDescBy (metricKey sort_by) (messages_all.filterMap scoreMsg)).take top_n

/-! ## Channel Aggregator, REST side (`get_channel_stats` in `main.py`) -/

/-- One `ChannelStats` response row (the fields `get_channel_stats`
computes; averages and medians are 0.0 when the channel has no valid
message). -/
structure ApiChannelStats where
  channel_id : Int
  channel_title : String
  is_active : Bool
  last_scraped_at : Option Int
  subscriber_count : Option Int
  total_messages : ℕ
  latest_message_date : Option Int
  avg_views : ℚ
  avg_reactions : ℚ
  avg_forwards : ℚ
  avg_replies : ℚ
  avg_engagement_count : ℚ
  avg_engagement_rate : ℚ
  median_views : ℚ
  median_views_7d : ℚ
  median_views_all_time : ℚ
  median_reactions : ℚ
  median_comments : ℚ
  median_engagement_rate : ℚ
deriving Repr, DecidableEq

/-- SQL `AVG` over a column: `NULL` on an empty row set. -/
def avgOpt (l : List ℚ) : Option ℚ :=
  if l.isEmpty then none else some (l.sum / (l.length : ℚ))

/-- SQL `percentile_cont(0.5) WITHIN GROUP`: `NULL` on an empty row set,
the interpolated median otherwise. -/
def percentileContHalf (l : List ℚ) : Option ℚ :=
  if l.isEmpty then none else some (statistics_median l)

/-- SQL `MAX` over a column of timestamps. -/
def maxDateOpt (l : List Int) : Option Int :=
  l.foldr (fun d acc => match acc with
    | none => some d
    | some a => some (max d a)) none

/-- Python `round(v, n) if v else 0.0` applied to a nullable SQL
aggregate. -/
def pyCoalesceRound (n : ℕ) (o : Option ℚ) : ℚ :=
  match o with
  | none => 0
  | some v => if v = 0 then 0 else roundDec n v

/-- The `views > 0` row filter of every statistics query in
`get_channel_stats` (SQL comparison: `NULL` views never qualify). -/
def validForStats (chId : Int) (s : StoredMsg) : Bool :=
  s.channel_id == chId &&
    (match s.views with
     | some v => decide (0 < v)
     | none => false)

/-- The per-channel body of `get_channel_stats` in `main.py`: aggregate
the channel's rows with positive views; every aggregate falls back to 0.0
when the set is empty.  `cutoff` is the `seven_days_ago` bound of the
windowed median. -/
def getChannelStatsRow (cutoff : Int) (msgs : List StoredMsg) (ch : Channel) :
    ApiChannelStats :=
  let valid := msgs.filter (validForStats ch.id)
  let valid7d := valid.filter (fun s =>
    match s.date with
    | some d => decide (cutoff ≤ d)
    | none => false)
  let viewsQ := valid.filterMap (fun s => s.views.map (fun v => (v : ℚ)))
  let reactionsQ := valid.map (fun s => (s.total_reactions : ℚ))
  let forwardsQ := valid.filterMap (fun s => s.forwards.map (fun v => (v : ℚ)))
  let repliesQ := valid.filterMap (fun s => s.replies.map (fun v => (v : ℚ)))
  let engCountQ := valid.map (fun s => (s.engagement_count : ℚ))
  let engRateQ := valid.map (fun s => s.engagement_rate)
  let views7dQ := valid7d.filterMap (fun s => s.views.map (fun v => (v : ℚ)))
  { channel_id := ch.id
    channel_title := ch.title
    is_active := ch.is_active
    last_scraped_at := ch.last_scraped_at
    subscriber_count := ch.subscriber_count
    total_messages := valid.length
    latest_message_date := maxDateOpt (valid.filterMap (fun s => s.date))
    avg_views := pyCoalesceRound 2 (avgOpt viewsQ)
    avg_reactions := pyCoalesceRound 2 (avgOpt reactionsQ)
    avg_forwards := pyCoalesceRound 2 (avgOpt forwardsQ)
    avg_replies := pyCoalesceRound 2 (avgOpt repliesQ)
    avg_engagement_count := pyCoalesceRound 2 (avgOpt engCountQ)
    avg_engagement_rate := pyCoalesceRound 4 (avgOpt engRateQ)
    median_views := pyCoalesceRound 2 (percentileContHalf viewsQ)
    median_views_7d := pyCoalesceRound 2 (percentileContHalf views7dQ)
    median_views_all_time := pyCoalesceRound 2 (percentileContHalf viewsQ)
    median_reactions := pyCoalesceRound 2 (percentileContHalf reactionsQ)
    median_comments := pyCoalesceRound 2 (percentileContHalf repliesQ)
    median_engagement_rate := pyCoalesceRound 4 (percentileContHalf engRateQ) }

/-- Embedding of the `/stats/channels` endpoint `get_channel_stats`:
one row per selected channel, in the order the channels are returned by
the store — the rows are never re-sorted. -/
def get_channel_stats (cutoff : Int) (db : DbState)
    (is_active : Option Bool) : List ApiChannelStats :=
  let channels :=
    match is_active with
    | none => db.channels
    | some b => db.channels.filter (fun c => c.is_active == b)
  channels.map (getChannelStatsRow cutoff db.messages)

/-! ## Helper lemmas -/

theorem classifyReactions_sum (l : List ReactionResult) :
    (classifyReactions l).1 + (classifyReactions l).2 = sumCounts l := by
  induction l with
  | nil => simp [classifyReactions, sumCounts]
  | cons r rest ih =>
    simp only [sumCounts, List.map_cons, List.sum_cons] at ih ⊢
    cases hr : r.reaction with
    | none =>
      simp [classifyReactions, hr]
      omega
    | some k =>
      by_cases hk : isPaidKind k = true
      · simp [classifyReactions, hr, hk]
        omega
      · simp [classifyReactions, hr, hk]
        omega

/-! ## C3: reaction classification partition -/

/-- C3: for every reaction batch in which every entry carries a kind
discriminator, the free total plus the paid total equals the sum of all
entry counts; an entry with no discriminator contributes its full count to
the free total; entries of kind `ReactionCustomEmoji` or `ReactionPaid`
are excluded from the free total; entries of every other kind count as
free. -/
theorem reaction_classification_partition (batch : List ReactionResult) :
    ((∀ r ∈ batch, (r.reaction).isSome) →
      (classifyReactions batch).1 + (classifyReactions batch).2 = sumCounts batch) ∧
    (∀ e : ReactionResult, e.reaction = none →
      classifyReactions (e :: batch) =
        (e.count + (classifyReactions batch).1, (classifyReactions batch).2)) ∧
    (∀ e : ReactionResult, ∀ k : String, e.reaction = some k →
      (k = "ReactionPaid" ∨ k = "ReactionCustomEmoji") →
      (classifyReactions (e :: batch)).1 = (classifyReactions batch).1) ∧
    (∀ e : ReactionResult, ∀ k : String, e.reaction = some k →
      k ≠ "ReactionPaid" → k ≠ "ReactionCustomEmoji" →
      (classifyReactions (e :: batch)).1 = e.count + (classifyReactions batch).1) := by
  refine ⟨fun _ => classifyReactions_sum batch, ?_, ?_, ?_⟩
  · intro e he
    simp [classifyReactions, he]
  · intro e k he hk
    have hpaid : isPaidKind k = true := by
      rcases hk with h | h <;> simp [isPaidKind, h]
    simp [classifyReactions, he, hpaid]
  · intro e k he h1 h2
    have hpaid : isPaidKind k = false := by
      simp [isPaidKind, h1, h2]
    simp [classifyReactions, he, hpaid]

/-- A concrete batch of reaction entries for witnesses: 5 standard-emoji
reactions, 3 paid-star reactions, 2 custom-emoji reactions. -/
def demoBatch : List ReactionResult :=
  [⟨some "ReactionEmoji", 5⟩, ⟨some "ReactionPaid", 3⟩, ⟨some "ReactionCustomEmoji", 2⟩]

theorem reaction_classification_partition_witness :
    (∀ r ∈ demoBatch, (r.reaction).isSome) ∧
    (classifyReactions demoBatch).1 + (classifyReactions demoBatch).2 = sumCounts demoBatch :=
  ⟨by decide, (reaction_classification_partition demoBatch).1 (by decide)⟩

/-! ## C4: engagement calculation -/

/-- C4: engagement_count is reactions + forwards + replies with nullable
inputs coalesced to 0; engagement_rate is 0 when coalesced views are not
positive, and otherwise engagement_count / views * 100 rounded to 4
decimal places; the function is total and the all-zero input yields
`(0, 0)`. -/
theorem engagement_calculation (m : TelegramMsgIn) (tr : Int) :
    (calculate_engagement m tr).1 = tr + m.forwards.getD 0 + m.replies.getD 0 ∧
    (m.views.getD 0 ≤ 0 → (calculate_engagement m tr).2 = 0) ∧
    (0 < m.views.getD 0 →
      (calculate_engagement m tr).2 =
        roundDec 4 (((tr + m.forwards.getD 0 + m.replies.getD 0 : Int) : ℚ)
          / ((m.views.getD 0 : Int) : ℚ) * 100)) ∧
    calculate_engagement ⟨0, none, none, none, none, none, none⟩ 0 = (0, 0) := by
  refine ⟨rfl, ?_, ?_, ?_⟩
  · intro h
    have hv : ¬ (0 < m.views.getD 0) := not_lt.2 h
    simp [calculate_engagement, hv, roundDec_zero]
  · intro h
    simp [calculate_engagement, h]
  · simp [calculate_engagement, roundDec_zero]

/-- A concrete fetched message for witnesses: the §8 scenario of the
spec — 1000 views, 5 forwards, 3 replies, 20 free and 50 paid
reactions. -/
def demoMsg : TelegramMsgIn :=
  ⟨1, none, none, some 1000, some 5, some 3,
    some [⟨some "ReactionEmoji", 20⟩, ⟨some "ReactionPaid", 50⟩]⟩

theorem engagement_calculation_witness :
    (0 : Int) < demoMsg.views.getD 0 ∧
    (calculate_engagement demoMsg 20).2 =
      roundDec 4 (((20 + demoMsg.forwards.getD 0 + demoMsg.replies.getD 0 : Int) : ℚ)
        / ((demoMsg.views.getD 0 : Int) : ℚ) * 100) :=
  ⟨by decide, (engagement_calculation demoMsg 20).2.2.1 (by decide)⟩

/-! ## C7: median interpolation -/

/-- C7: for every even-sized list of metric values the median is the
midpoint of the two middle order statistics of the sorted list; in
particular the median of 10, 20, 30, 40 is 25. -/
theorem median_even_interpolation (l : List ℚ) (k : ℕ) :
    (l.length = 2 * k + 2 →
      statistics_median l =
        ((l.insertionSort (fun a b => a ≤ b)).getD k 0 +
         (l.insertionSort (fun a b => a ≤ b)).getD (k + 1) 0) / 2) ∧
    statistics_median [10, 20, 30, 40] = 25 := by
  constructor
  · intro h
    have hlen : (l.insertionSort (fun a b => a ≤ b)).length = l.length :=
      (List.perm_insertionSort _ l).length_eq
    have hmod : ¬ ((2 * k + 2) % 2 = 1) := by omega
    have hdiv : (2 * k + 2) / 2 = k + 1 := by omega
    simp only [statistics_median, hlen, h, hmod, if_false, hdiv, Nat.add_sub_cancel]
  · have hs : ([10, 20, 30, 40] : List ℚ).insertionSort (fun a b => a ≤ b)
        = [10, 20, 30, 40] := by decide
    simp only [statistics_median, hs]
    norm_num [List.getD]

theorem median_even_interpolation_witness :
    ([10, 20, 30, 40] : List ℚ).length = 2 * 1 + 2 ∧
    statistics_median [10, 20, 30, 40] =
      ((([10, 20, 30, 40] : List ℚ).insertionSort (fun a b => a ≤ b)).getD 1 0 +
       (([10, 20, 30, 40] : List ℚ).insertionSort (fun a b => a ≤ b)).getD (1 + 1) 0) / 2 :=
  ⟨by decide, (median_even_interpolation [10, 20, 30, 40] 1).1 (by decide)⟩

/-! ## C10: run summary success flag -/

/-- C10: the scrape-run summary's success flag is true exactly when its
error list is empty; a run over an empty set of active (or matching)
channels reports failure with zero counts and the corresponding single
error entry. -/
theorem scrape_summary_success_iff (fetch : Channel → FetchResult) (now : Int)
    (db : DbState) (ids : List Int) :
    ((scrape_all_active_channels fetch now db).2.success = true ↔
      (scrape_all_active_channels fetch now db).2.errors = []) ∧
    (get_active_channels db = [] →
      (scrape_all_active_channels fetch now db).2 =
        ⟨false, 0, 0, 0, ["No active channels found"]⟩) ∧
    ((scrape_specific_channels fetch now db ids).2.success = true ↔
      (scrape_specific_channels fetch now db ids).2.errors = []) ∧
    (specificChannels db ids = [] →
      (scrape_specific_channels fetch now db ids).2 =
        ⟨false, 0, 0, 0, ["No matching active channels found"]⟩) := by
  refine ⟨?_, ?_, ?_, ?_⟩
  · cases hl : get_active_channels db with
    | nil => simp [scrape_all_active_channels, hl]
    | cons c cs => simp [scrape_all_active_channels, hl, List.isEmpty_iff]
  · intro h
    simp [scrape_all_active_channels, h]
  · cases hl : specificChannels db ids with
    | nil => simp [scrape_specific_channels, hl]
    | cons c cs => simp [scrape_specific_channels, hl, List.isEmpty_iff]
  · intro h
    simp [scrape_specific_channels, h]

theorem scrape_summary_success_iff_witness :
    get_active_channels ⟨[], []⟩ = [] ∧
    (scrape_all_active_channels (fun _ => ⟨[], none⟩) 0 ⟨[], []⟩).2 =
      ⟨false, 0, 0, 0, ["No active channels found"]⟩ :=
  ⟨rfl, (scrape_summary_success_iff (fun _ => ⟨[], none⟩) 0 ⟨[], []⟩ []).2.1 rfl⟩

/-! ## Properties of the stable descending sort -/

theorem mem_insertDescBy {α β : Type} [LinearOrder β] (key : α → β) (x a : α) :
    ∀ l : List α, a ∈ insertDescBy key x l ↔ a = x ∨ a ∈ l := by
  intro l
  induction l with
  | nil => simp [insertDescBy]
  | cons y ys ih =>
    by_cases hxy : key x ≤ key y
    · simp only [insertDescBy, if_pos hxy, List.mem_cons, ih]
      tauto
    · simp only [insertDescBy, if_neg hxy, List.mem_cons]

theorem insertDescBy_sorted {α β : Type} [LinearOrder β] (key : α → β) (x : α) :
    ∀ l : List α, List.Pairwise (fun a b => key b ≤ key a) l →
      List.Pairwise (fun a b => key b ≤ key a) (insertDescBy key x l) := by
  intro l
  induction l with
  | nil => simp [insertDescBy]
  | cons y ys ih =>
    intro h
    rw [List.pairwise_cons] at h
    by_cases hxy : key x ≤ key y
    · rw [insertDescBy, if_pos hxy, List.pairwise_cons]
      refine ⟨?_, ih h.2⟩
      intro b hb
      rcases (mem_insertDescBy key x b ys).1 hb with rfl | hb
      · exact hxy
      · exact h.1 b hb
    · rw [insertDescBy, if_neg hxy, List.pairwise_cons]
      refine ⟨?_, List.pairwise_cons.2 h⟩
      intro b hb
      rcases List.mem_cons.1 hb with rfl | hb
      · exact le_of_not_le hxy
      · exact le_trans (h.1 b hb) (le_of_not_le hxy)

theorem sortDescBy_go_sorted {α β : Type} [LinearOrder β] (key : α → β) :
    ∀ (l acc : List α), List.Pairwise (fun a b => key b ≤ key a) acc →
      List.Pairwise (fun a b => key b ≤ key a)
        (l.foldl (fun s x => insertDescBy key x s) acc) := by
  intro l
  induction l with
  | nil => intro acc h; exact h
  | cons x xs ih =>
    intro acc h
    exact ih (insertDescBy key x acc) (insertDescBy_sorted key x acc h)

theorem sortDescBy_sorted {α β : Type} [LinearOrder β] (key : α → β) (l : List α) :
    List.Pairwise (fun a b => key b ≤ key a) (sortDescBy key l) :=
  sortDescBy_go_sorted key l [] (List.Pairwise.nil)

theorem mem_sortDescBy_go {α β : Type} [LinearOrder β] (key : α → β) (a : α) :
    ∀ (l acc : List α),
      a ∈ l.foldl (fun s x => insertDescBy key x s) acc ↔ a ∈ acc ∨ a ∈ l := by
  intro l
  induction l with
  | nil => intro acc; simp
  | cons x xs ih =>
    intro acc
    rw [List.foldl_cons, ih, mem_insertDescBy]
    simp
    tauto

theorem mem_sortDescBy {α β : Type} [LinearOrder β] (key : α → β) (a : α)
    (l : List α) : a ∈ sortDescBy key l ↔ a ∈ l := by
  rw [sortDescBy, mem_sortDescBy_go]
  simp

theorem filter_key_insertDescBy {α β : Type} [LinearOrder β] [DecidableEq β]
    (key : α → β) (v : β) (x : α) :
    ∀ l : List α, List.Pairwise (fun a b => key b ≤ key a) l →
      (insertDescBy key x l).filter (fun a => key a == v) =
        if key x = v then l.filter (fun a => key a == v) ++ [x]
        else l.filter (fun a => key a == v) := by
  intro l
  induction l with
  | nil =>
    intro _
    by_cases hv : key x = v <;> simp [insertDescBy, hv]
  | cons y ys ih =>
    intro h
    rw [List.pairwise_cons] at h
    by_cases hxy : key x ≤ key y
    · rw [insertDescBy, if_pos hxy]
      by_cases hyv : key y = v
      · by_cases hv : key x = v <;>
          simp [List.filter_cons, hyv, ih h.2, hv]
      · by_cases hv : key x = v <;>
          simp [List.filter_cons, hyv, ih h.2, hv]
    · rw [insertDescBy, if_neg hxy]
      by_cases hv : key x = v
      · have hnone : (y :: ys).filter (fun a => key a == v) = [] := by
          apply List.filter_eq_nil_iff.2
          intro b hb
          have hb2 : key b ≤ key y := by
            rcases List.mem_cons.1 hb with rfl | hb
            · exact le_refl _
            · exact h.1 b hb
          have hlt : key b < key x := lt_of_le_of_lt hb2 (lt_of_not_le hxy)
          rw [hv] at hlt
          simp [ne_of_lt hlt]
        simp [List.filter_cons, hv, hnone]
      · simp [List.filter_cons, hv]

theorem filter_key_sortDescBy_go {α β : Type} [LinearOrder β] [DecidableEq β]
    (key : α → β) (v : β) :
    ∀ (l acc : List α), List.Pairwise (fun a b => key b ≤ key a) acc →
      (l.foldl (fun s x => insertDescBy key x s) acc).filter (fun a => key a == v) =
        acc.filter (fun a => key a == v) ++ l.filter (fun a => key a == v) := by
  intro l
  induction l with
  | nil => intro acc _; simp
  | cons x xs ih =>
    intro acc h
    rw [List.foldl_cons, ih (insertDescBy key x acc) (insertDescBy_sorted key x acc h),
      filter_key_insertDescBy key v x acc h]
    by_cases hv : key x = v
    · simp [List.filter_cons, hv]
    · simp [List.filter_cons, hv]

/-- Stability of the descending sort: elements sharing any key value keep
their original relative order. -/
theorem filter_key_sortDescBy {α β : Type} [LinearOrder β] [DecidableEq β]
    (key : α → β) (v : β) (l : List α) :
    (sortDescBy key l).filter (fun a => key a == v) =
      l.filter (fun a => key a == v) := by
  rw [sortDescBy, filter_key_sortDescBy_go key v l [] List.Pairwise.nil]
  simp

/-! ## C8: ranking contract -/

theorem scoreMsg_pos {msg : PMsg} {p : ScoredPost} (h : scoreMsg msg = some p) :
    0 < p.views ∧ 0 < p.engagement_count := by
  by_cases hg : msg.views.getD 0 ≤ 0 ∨ msg.engagement_count.getD 0 ≤ 0
  · rw [scoreMsg, if_pos hg] at h
    exact absurd h (by simp)
  · rw [scoreMsg, if_neg hg] at h
    push_neg at hg
    cases h
    exact ⟨hg.1, hg.2⟩

/-- C8: the ranking engine keeps only posts with positive views and
positive engagement count, sorts the survivors descending by the chosen
metric keeping ties in their original relative order (stability stated as:
restricting the sorted pool to any fixed key value gives the same sequence
as restricting the unsorted pool), and returns at most the first `top_n`
of the result. -/
theorem ranking_contract (pool : List PMsg) (top_n : ℕ) (metric : RankMetric) :
    (collect_top_posts pool top_n metric).length ≤ top_n ∧
    (∀ p ∈ collect_top_posts pool top_n metric,
      0 < p.views ∧ 0 < p.engagement_count) ∧
    List.Pairwise (fun a b => metricKey metric b ≤ metricKey metric a)
      (collect_top_posts pool top_n metric) ∧
    (∀ v : ℚ,
      (sortDescBy (metricKey metric) (pool.filterMap scoreMsg)).filter
          (fun p => metricKey metric p == v) =
        (pool.filterMap scoreMsg).filter (fun p => metricKey metric p == v)) := by
  refine ⟨?_, ?_, ?_, ?_⟩
  · rw [collect_top_posts]
    simp [List.length_take]
  · intro p hp
    have hmem : p ∈ sortDescBy (metricKey metric) (pool.filterMap scoreMsg) :=
      (List.take_sublist _ _).subset hp
    have hpool : p ∈ pool.filterMap scoreMsg := (mem_sortDescBy _ p _).1 hmem
    obtain ⟨msg, _, hscore⟩ := List.mem_filterMap.1 hpool
    exact scoreMsg_pos hscore
  · exact List.Pairwise.sublist (List.take_sublist _ _)
      (sortDescBy_sorted (metricKey metric) (pool.filterMap scoreMsg))
  · intro v
    exact filter_key_sortDescBy (metricKey metric) v (pool.filterMap scoreMsg)

/-- A pool of ten posts, all with positive views, the last two with zero
engagement count. -/
def demoPool : List PMsg :=
  [⟨"c", 1, none, none, some 100, none, none, some 1, some 10, some 10, none⟩,
   ⟨"c", 2, none, none, some 100, none, none, some 2, some 9, some 9, none⟩,
   ⟨"c", 3, none, none, some 100, none, none, some 3, some 8, some 8, none⟩,
   ⟨"c", 4, none, none, some 100, none, none, some 4, some 7, some 7, none⟩,
   ⟨"c", 5, none, none, some 100, none, none, some 5, some 6, some 6, none⟩,
   ⟨"c", 6, none, none, some 100, none, none, some 6, some 5, some 5, none⟩,
   ⟨"c", 7, none, none, some 100, none, none, some 7, some 4, some 4, none⟩,
   ⟨"c", 8, none, none, some 100, none, none, some 8, some 3, some 3, none⟩,
   ⟨"c", 9, none, none, some 100, none, none, some 0, some 0, some 0, none⟩,
   ⟨"c", 10, none, none, some 100, none, none, some 0, some 0, some 0, none⟩]

theorem ranking_contract_witness :
    (collect_top_posts demoPool 5 RankMetric.engagement_rate).length ≤ 5 ∧
    (∀ p ∈ collect_top_posts demoPool 5 RankMetric.engagement_rate,
      0 < p.views ∧ 0 < p.engagement_count) :=
  ⟨(ranking_contract demoPool 5 RankMetric.engagement_rate).1,
   (ranking_contract demoPool 5 RankMetric.engagement_rate).2.1⟩

/-! ## C9: aggregate ordering (corrected) -/

/-- C9 counterexample: two active channels stored with subscriber counts
1 and 2 in that order; the `/stats/channels` endpoint returns their
statistics rows in that same stored order, so the output is not sorted by
subscriber count descending. -/
theorem aggregate_ordering_counterexample :
    ((get_channel_stats 0 ⟨[⟨1, 100, "a", true, some 1, none⟩,
        ⟨2, 200, "b", true, some 2, none⟩], []⟩ none).map
      (fun r => r.subscriber_count) = [some 1, some 2]) ∧
    ¬ List.Pairwise
        (fun a b => b.subscriber_count.getD 0 ≤ a.subscriber_count.getD 0)
        (get_channel_stats 0 ⟨[⟨1, 100, "a", true, some 1, none⟩,
          ⟨2, 200, "b", true, some 2, none⟩], []⟩ none) := by
  exact ⟨rfl, by decide⟩

/-- C9 amended: the parser-side aggregator `calculate_channel_stats` does
sort its output by subscriber count descending; the REST-side aggregator
`get_channel_stats` returns one row per selected channel in the channels'
stored order, without re-sorting. -/
theorem aggregate_ordering_amended (l : List ChannelData) (cutoff : Int)
    (db : DbState) (f : Option Bool) :
    List.Pairwise (fun a b => b.subscribers ≤ a.subscribers)
      (calculate_channel_stats l) ∧
    (get_channel_stats cutoff db f).map (fun r => r.channel_id) =
      ((match f with
        | none => db.channels
        | some b => db.channels.filter (fun c => c.is_active == b)) : List Channel).map
        (fun c : Channel => c.id) := by
  constructor
  · exact sortDescBy_sorted (fun r => r.subscribers) (l.filterMap channelStatsRow)
  · cases f <;> simp [get_channel_stats, List.map_map, getChannelStatsRow, Function.comp]

/-! ## C6: channel exclusion on empty filtered set (corrected) -/

/-- C6 counterexample: a stored channel whose only post has zero views is
not omitted by the `/stats/channels` aggregator — the endpoint returns a
row for it, with a zero message count and all-zero metric values. -/
theorem channel_exclusion_counterexample :
    ((get_channel_stats 0 ⟨[⟨1, 100, "empty", true, none, none⟩],
        [⟨1, 10, some 0, some "draft", some 0, none, none, 0, 0, 0, 5, 0⟩]⟩ none).map
      (fun r => r.channel_id) = [1]) ∧
    ((get_channel_stats 0 ⟨[⟨1, 100, "empty", true, none, none⟩],
        [⟨1, 10, some 0, some "draft", some 0, none, none, 0, 0, 0, 5, 0⟩]⟩ none).map
      (fun r => r.total_messages) = [0]) := by
  exact ⟨rfl, rfl⟩

theorem channelStatsRow_none {cd : ChannelData}
    (h : ∀ m ∈ cd.messages, m.views.getD 0 ≤ 0) : channelStatsRow cd = none := by
  have hfil : cd.messages.filter (fun m => decide (0 < m.views.getD 0)) = [] := by
    apply List.filter_eq_nil_iff.2
    intro m hm
    simpa using not_lt.2 (h m hm)
  simp [channelStatsRow, hfil]

/-- C6 amended: the parser-side aggregator `calculate_channel_stats` does
omit a channel whose posts all have nonpositive views; the REST-side
aggregator `get_channel_stats` instead keeps such a channel and reports it
with a zero message count and all-zero metric values. -/
theorem channel_exclusion_amended :
    (∀ (l1 l2 : List ChannelData) (cd : ChannelData),
      (∀ m ∈ cd.messages, m.views.getD 0 ≤ 0) →
      calculate_channel_stats (l1 ++ cd :: l2) = calculate_channel_stats (l1 ++ l2)) ∧
    (∀ (cutoff : Int) (msgs : List StoredMsg) (ch : Channel),
      (∀ s ∈ msgs, validForStats ch.id s = false) →
      getChannelStatsRow cutoff msgs ch =
        ⟨ch.id, ch.title, ch.is_active, ch.last_scraped_at, ch.subscriber_count,
         0, none, 0, 0, 0, 0, 0, 0, 0, 0, 0, 0, 0, 0⟩) := by
  constructor
  · intro l1 l2 cd h
    rw [calculate_channel_stats, calculate_channel_stats,
      List.filterMap_append, List.filterMap_append, List.filterMap_cons,
      channelStatsRow_none h]
  · intro cutoff msgs ch h
    have hfil : msgs.filter (validForStats ch.id) = [] :=
      List.filter_eq_nil_iff.2 (fun s hs => by simp [h s hs])
    simp [getChannelStatsRow, hfil, avgOpt, percentileContHalf, pyCoalesceRound,
      maxDateOpt]

/-- A channel-data record whose only message has zero views. -/
def demoCdEmpty : ChannelData :=
  ⟨"empty", 500, [⟨"empty", 1, none, some "draft", some 0, none, none,
    some 0, some 0, some 0, some 5⟩]⟩

theorem channel_exclusion_amended_witness :
    (∀ m ∈ demoCdEmpty.messages, m.views.getD 0 ≤ 0) ∧
    calculate_channel_stats ([] ++ demoCdEmpty :: []) = calculate_channel_stats ([] ++ []) :=
  ⟨by decide, channel_exclusion_amended.1 [] [] demoCdEmpty (by decide)⟩

/-! ## Upsert lemmas -/

/-- A stored row is in sync with a fetched message when its key is the
message's key and its seven mutable metric fields carry exactly the values
the upsert computes from the message. -/
def syncedRow (chId : Int) (m : TelegramMsgIn) (r : StoredMsg) : Prop :=
  r.channel_id = chId ∧ r.message_id = m.id ∧
  r.views = m.views ∧ r.forwards = m.forwards ∧ r.replies = m.replies ∧
  r.total_reactions = get_total_reactions m.reactions ∧
  r.engagement_count = (calculate_engagement m (get_total_reactions m.reactions)).1 ∧
  r.engagement_rate = (calculate_engagement m (get_total_reactions m.reactions)).2 ∧
  r.post_length = postLength m.text

theorem keyMatches_eq {chId msgId : Int} {r : StoredMsg} :
    keyMatches chId msgId r = true ↔ r.channel_id = chId ∧ r.message_id = msgId := by
  simp [keyMatches]

theorem keyMatches_applyMetricsUpdate (c i : Int) (r : StoredMsg) (m : TelegramMsgIn) :
    keyMatches c i (applyMetricsUpdate r m) = keyMatches c i r := rfl

theorem applyMetricsUpdate_synced {chId : Int} {m : TelegramMsgIn} {r : StoredMsg}
    (h1 : r.channel_id = chId) (h2 : r.message_id = m.id) :
    syncedRow chId m (applyMetricsUpdate r m) := by
  simp [syncedRow, applyMetricsUpdate, h1, h2]

theorem newStoredMsg_synced (chId now : Int) (m : TelegramMsgIn) :
    syncedRow chId m (newStoredMsg chId now m) := by
  simp [syncedRow, newStoredMsg]

theorem applyMetricsUpdate_eq_self {chId : Int} {m : TelegramMsgIn} {r : StoredMsg}
    (h : syncedRow chId m r) : applyMetricsUpdate r m = r := by
  obtain ⟨-, -, h3, h4, h5, h6, h7, h8, h9⟩ := h
  cases r
  simp_all [applyMetricsUpdate]

theorem findMsg_key {db : List StoredMsg} {chId msgId : Int} {r : StoredMsg}
    (h : findMsg db chId msgId = some r) :
    r.channel_id = chId ∧ r.message_id = msgId := by
  rw [findMsg] at h
  exact keyMatches_eq.1 (List.find?_some h)

theorem findMsg_updateFirst {chId : Int} {m : TelegramMsgIn} :
    ∀ {db : List StoredMsg} {r : StoredMsg},
      findMsg db chId m.id = some r →
      findMsg (updateFirst chId m.id (fun x => applyMetricsUpdate x m) db) chId m.id =
        some (applyMetricsUpdate r m) := by
  intro db
  induction db with
  | nil => intro r h; simp [findMsg] at h
  | cons y ys ih =>
    intro r h
    by_cases hk : keyMatches chId m.id y = true
    · rw [findMsg, List.find?_cons_of_pos _ hk] at h
      obtain rfl : y = r := Option.some.inj h
      rw [updateFirst, if_pos hk, findMsg,
        List.find?_cons_of_pos _ (by rw [keyMatches_applyMetricsUpdate]; exact hk)]
    · rw [findMsg, List.find?_cons_of_neg _ (by simp [hk])] at h
      rw [updateFirst, if_neg hk, findMsg, List.find?_cons_of_neg _ (by simp [hk])]
      exact ih h

theorem findMsg_append_new {db : List StoredMsg} {chId now : Int} {m : TelegramMsgIn}
    (h : findMsg db chId m.id = none) :
    findMsg (db ++ [newStoredMsg chId now m]) chId m.id =
      some (newStoredMsg chId now m) := by
  rw [findMsg] at h
  rw [findMsg, List.find?_append, h]
  simp [List.find?, keyMatches, newStoredMsg]

theorem processMessage_lookup (chId now : Int) (db : List StoredMsg) (m : TelegramMsgIn) :
    ∃ r, findMsg (processMessage chId now db m).1 chId m.id = some r ∧
      syncedRow chId m r := by
  cases h : findMsg db chId m.id with
  | some r0 =>
    refine ⟨applyMetricsUpdate r0 m, ?_, ?_⟩
    · simp only [processMessage, h]
      exact findMsg_updateFirst h
    · obtain ⟨h1, h2⟩ := findMsg_key h
      exact applyMetricsUpdate_synced h1 h2
  | none =>
    refine ⟨newStoredMsg chId now m, ?_, newStoredMsg_synced chId now m⟩
    simp only [processMessage, h]
    exact findMsg_append_new h

theorem findMsg_updateFirst_ne {chId mid qid : Int} (hne : qid ≠ mid)
    (m : TelegramMsgIn) :
    ∀ db : List StoredMsg,
      findMsg (updateFirst chId mid (fun x => applyMetricsUpdate x m) db) chId qid =
        findMsg db chId qid := by
  intro db
  induction db with
  | nil => rfl
  | cons y ys ih =>
    have hmq : (mid == qid) = false := beq_eq_false_iff_ne.2 (fun hh => hne hh.symm)
    by_cases hk : keyMatches chId mid y = true
    · have hy : y.message_id = mid := (keyMatches_eq.1 hk).2
      have hq : keyMatches chId qid y = false := by
        simp [keyMatches, hy, hmq]
      have hq2 : keyMatches chId qid (applyMetricsUpdate y m) = false := by
        rw [keyMatches_applyMetricsUpdate]; exact hq
      rw [updateFirst, if_pos hk, findMsg, findMsg,
        List.find?_cons_of_neg _ (by simp [hq2]),
        List.find?_cons_of_neg _ (by simp [hq])]
    · rw [updateFirst, if_neg hk]
      by_cases hq : keyMatches chId qid y = true
      · rw [findMsg, findMsg, List.find?_cons_of_pos _ hq, List.find?_cons_of_pos _ hq]
      · rw [findMsg, findMsg, List.find?_cons_of_neg _ (by simp [hq]),
          List.find?_cons_of_neg _ (by simp [hq])]
        exact ih

theorem findMsg_append_ne {qid : Int} {r2 : StoredMsg} (chId : Int)
    (h : keyMatches chId qid r2 = false) (db : List StoredMsg) :
    findMsg (db ++ [r2]) chId qid = findMsg db chId qid := by
  rw [findMsg, List.find?_append, findMsg]
  cases hf : db.find? (keyMatches chId qid) with
  | some r => simp
  | none => simp [List.find?, h]

theorem processMessage_find_ne {qid : Int} (chId now : Int) (db : List StoredMsg)
    (m : TelegramMsgIn) (hne : qid ≠ m.id) :
    findMsg (processMessage chId now db m).1 chId qid = findMsg db chId qid := by
  cases h : findMsg db chId m.id with
  | some r0 =>
    simp only [processMessage, h]
    exact findMsg_updateFirst_ne hne m db
  | none =>
    simp only [processMessage, h]
    apply findMsg_append_ne
    have hmq : (m.id == qid) = false := beq_eq_false_iff_ne.2 (fun hh => hne hh.symm)
    simp [keyMatches, newStoredMsg, hmq]

theorem scrapeBatch_cons_fst (chId now : Int) (db : List StoredMsg)
    (m : TelegramMsgIn) (rest : List TelegramMsgIn) :
    (scrapeBatch chId now db (m :: rest)).1 =
      (scrapeBatch chId now (processMessage chId now db m).1 rest).1 := by
  simp only [scrapeBatch]
  split <;> rfl

theorem scrapeBatch_find_ne {qid : Int} (chId now : Int) :
    ∀ (msgs : List TelegramMsgIn) (db : List StoredMsg),
      (∀ m2 ∈ msgs, qid ≠ m2.id) →
      findMsg (scrapeBatch chId now db msgs).1 chId qid = findMsg db chId qid := by
  intro msgs
  induction msgs with
  | nil => intro db _; rfl
  | cons m rest ih =>
    intro db h
    rw [scrapeBatch_cons_fst chId now db m rest,
      ih _ (fun m2 hm2 => h m2 (List.mem_cons_of_mem m hm2)),
      processMessage_find_ne chId now db m (h m (List.mem_cons_self m rest))]

theorem updateFirst_synced :
    ∀ {db : List StoredMsg} {chId : Int} {m : TelegramMsgIn} {r : StoredMsg},
      findMsg db chId m.id = some r → syncedRow chId m r →
      updateFirst chId m.id (fun x => applyMetricsUpdate x m) db = db := by
  intro db
  induction db with
  | nil => intro _ _ _ _ _; rfl
  | cons y ys ih =>
    intro chId m r h hs
    by_cases hk : keyMatches chId m.id y = true
    · rw [findMsg, List.find?_cons_of_pos _ hk] at h
      obtain rfl : y = r := Option.some.inj h
      rw [updateFirst, if_pos hk, applyMetricsUpdate_eq_self hs]
    · rw [findMsg, List.find?_cons_of_neg _ (by simp [hk])] at h
      rw [updateFirst, if_neg hk, ih h hs]

theorem processMessage_of_synced (chId now2 : Int) (db : List StoredMsg)
    (m : TelegramMsgIn) (r : StoredMsg) (hf : findMsg db chId m.id = some r)
    (hs : syncedRow chId m r) : processMessage chId now2 db m = (db, true) := by
  have hu := updateFirst_synced hf hs
  simp only [processMessage, hf, hu]

theorem updateFirst_eq_set :
    ∀ {db : List StoredMsg} {chId msgId : Int} {r : StoredMsg},
      findMsg db chId msgId = some r →
      ∃ i : ℕ, db[i]? = some r ∧
        ∀ f : StoredMsg → StoredMsg, updateFirst chId msgId f db = db.set i (f r) := by
  intro db
  induction db with
  | nil => intro _ _ _ h; simp [findMsg] at h
  | cons y ys ih =>
    intro chId msgId r h
    by_cases hk : keyMatches chId msgId y = true
    · rw [findMsg, List.find?_cons_of_pos _ hk] at h
      obtain rfl : y = r := Option.some.inj h
      exact ⟨0, by simp, fun f => by rw [updateFirst, if_pos hk]; rfl⟩
    · rw [findMsg, List.find?_cons_of_neg _ (by simp [hk])] at h
      obtain ⟨i, hi, hset⟩ := ih h
      exact ⟨i + 1, by simpa using hi,
        fun f => by rw [updateFirst, if_neg hk, hset f]; rfl⟩

/-! ## C5: update frame -/

/-- C5: when an incoming message's composite key matches a stored row, the
upsert counts an update, replaces exactly that row in place (the store
keeps its length and every other row), and the replacement changes only
the seven mutable metric fields — identity, text, post timestamp and
creation timestamp are untouched. -/
theorem upsert_update_frame (chId now : Int) (db : List StoredMsg)
    (m : TelegramMsgIn) (r : StoredMsg) (h : findMsg db chId m.id = some r) :
    (processMessage chId now db m).2 = true ∧
    (processMessage chId now db m).1.length = db.length ∧
    (∃ i : ℕ, db[i]? = some r ∧
      (processMessage chId now db m).1 = db.set i (applyMetricsUpdate r m)) ∧
    (applyMetricsUpdate r m).channel_id = r.channel_id ∧
    (applyMetricsUpdate r m).message_id = r.message_id ∧
    (applyMetricsUpdate r m).text = r.text ∧
    (applyMetricsUpdate r m).date = r.date ∧
    (applyMetricsUpdate r m).created_at = r.created_at ∧
    (applyMetricsUpdate r m).views = m.views ∧
    (applyMetricsUpdate r m).forwards = m.forwards ∧
    (applyMetricsUpdate r m).replies = m.replies ∧
    (applyMetricsUpdate r m).total_reactions = get_total_reactions m.reactions ∧
    (applyMetricsUpdate r m).engagement_count =
      (calculate_engagement m (get_total_reactions m.reactions)).1 ∧
    (applyMetricsUpdate r m).engagement_rate =
      (calculate_engagement m (get_total_reactions m.reactions)).2 ∧
    (applyMetricsUpdate r m).post_length = postLength m.text := by
  obtain ⟨i, hi, hset⟩ := updateFirst_eq_set h
  refine ⟨by simp only [processMessage, h], ?_, ⟨i, hi, ?_⟩,
    rfl, rfl, rfl, rfl, rfl, rfl, rfl, rfl, rfl, rfl, rfl, rfl⟩
  · simp only [processMessage, h]
    rw [hset]
    exact List.length_set db i _
  · simp only [processMessage, h]
    exact hset _

/-- A stored row for witnesses. -/
def demoRow : StoredMsg :=
  ⟨1, 5, some 100, some "hello", some 10, some 2, some 1, 3, 6, 0, 5, 42⟩

/-- An incoming message matching `demoRow`'s key with fresh metrics. -/
def demoUpd : TelegramMsgIn :=
  ⟨5, some 200, some "changed", some 150, some 3, some 2, none⟩

theorem upsert_update_frame_witness :
    findMsg [demoRow] 1 demoUpd.id = some demoRow ∧
    (processMessage 1 99 [demoRow] demoUpd).2 = true :=
  ⟨rfl, (upsert_update_frame 1 99 [demoRow] demoUpd demoRow rfl).1⟩

/-! ## C1: upsert idempotence -/

theorem scrapeBatch_idem_aux (chId now now2 : Int) :
    ∀ (msgs : List TelegramMsgIn) (db : List StoredMsg),
      (msgs.map (fun m2 => m2.id)).Nodup →
      scrapeBatch chId now2 (scrapeBatch chId now db msgs).1 msgs =
        ((scrapeBatch chId now db msgs).1, 0, msgs.length) := by
  intro msgs
  induction msgs with
  | nil => intro db _; rfl
  | cons m rest ih =>
    intro db h
    rw [List.map_cons, List.nodup_cons] at h
    obtain ⟨hm, hrest⟩ := h
    have hfst : (scrapeBatch chId now db (m :: rest)).1 =
        (scrapeBatch chId now (processMessage chId now db m).1 rest).1 :=
      scrapeBatch_cons_fst chId now db m rest
    obtain ⟨r, hfind1, hsync⟩ := processMessage_lookup chId now db m
    have hne : ∀ m2 ∈ rest, m.id ≠ m2.id := by
      intro m2 hm2 heq
      exact hm (heq ▸ List.mem_map_of_mem _ hm2)
    have hfind2 : findMsg (scrapeBatch chId now (processMessage chId now db m).1 rest).1
        chId m.id = some r := by
      rw [scrapeBatch_find_ne chId now rest _ hne]
      exact hfind1
    have hproc2 : processMessage chId now2
        (scrapeBatch chId now (processMessage chId now db m).1 rest).1 m =
        ((scrapeBatch chId now (processMessage chId now db m).1 rest).1, true) :=
      processMessage_of_synced chId now2 _ m r hfind2 hsync
    have hrest2 : scrapeBatch chId now2
        (scrapeBatch chId now (processMessage chId now db m).1 rest).1 rest =
        ((scrapeBatch chId now (processMessage chId now db m).1 rest).1, 0, rest.length) :=
      ih _ hrest
    rw [hfst]
    simp [scrapeBatch, hproc2, hrest2]

/-- C1: re-applying an identical fetched batch (distinct post ids, source
metrics unchanged) to the state produced by its first application leaves
the stored rows unchanged and reports 0 new insertions and batch-size-many
updates; the second run's insertion timestamp is irrelevant since nothing
is inserted. -/
theorem upsert_idempotent (chId now now2 : Int) (db : List StoredMsg)
    (msgs : List TelegramMsgIn) (h : (msgs.map (fun m2 => m2.id)).Nodup) :
    scrapeBatch chId now2 (scrapeBatch chId now db msgs).1 msgs =
      ((scrapeBatch chId now db msgs).1, 0, msgs.length) :=
  scrapeBatch_idem_aux chId now now2 msgs db h

/-- Two fetched messages with distinct ids for witnesses. -/
def demoM1 : TelegramMsgIn := ⟨1, some 10, some "a", some 7, some 1, none, none⟩

/-- Second witness message. -/
def demoM2 : TelegramMsgIn := ⟨2, some 20, some "b", none, none, some 4, none⟩

theorem upsert_idempotent_witness :
    (([demoM1, demoM2].map (fun m2 => m2.id)).Nodup) ∧
    scrapeBatch 1 7 (scrapeBatch 1 3 [] [demoM1, demoM2]).1 [demoM1, demoM2] =
      ((scrapeBatch 1 3 [] [demoM1, demoM2]).1, 0, [demoM1, demoM2].length) :=
  ⟨by decide, upsert_idempotent 1 3 7 [] [demoM1, demoM2] (by decide)⟩

/-! ## C2: per-channel error isolation -/

theorem scrapeChannelsLoop_append (fetch : Channel → FetchResult) (now : Int) :
    ∀ (l1 l2 : List Channel) (db : DbState),
      scrapeChannelsLoop fetch now db (l1 ++ l2) =
        ((scrapeChannelsLoop fetch now (scrapeChannelsLoop fetch now db l1).1 l2).1,
         (scrapeChannelsLoop fetch now db l1).2.1 +
           (scrapeChannelsLoop fetch now (scrapeChannelsLoop fetch now db l1).1 l2).2.1,
         (scrapeChannelsLoop fetch now db l1).2.2.1 +
           (scrapeChannelsLoop fetch now (scrapeChannelsLoop fetch now db l1).1 l2).2.2.1,
         (scrapeChannelsLoop fetch now db l1).2.2.2 ++
           (scrapeChannelsLoop fetch now (scrapeChannelsLoop fetch now db l1).1 l2).2.2.2) := by
  intro l1
  induction l1 with
  | nil => intro l2 db; simp [scrapeChannelsLoop]
  | cons c cs ih =>
    intro l2 db
    rw [List.cons_append]
    simp only [scrapeChannelsLoop]
    rw [ih l2 (scrape_channel c (fetch c) now db).1]
    by_cases hs : (scrape_channel c (fetch c) now db).2.success = true
    · simp [hs, Nat.add_assoc]
    · simp [hs, Nat.add_assoc]

theorem scrape_channel_fail (ch : Channel) (fr : FetchResult) (now : Int)
    (db : DbState) (e : String) (h : fr.failure = some e) :
    scrape_channel ch fr now db = (db, ⟨false, 0, 0, some e⟩) := by
  simp [scrape_channel, h]

/-- C2: if fetching or processing one channel raises, that channel's
pending writes are rolled back (the store flows into the remaining
channels exactly as it was before the failing channel), an error entry
naming the channel and the reason is recorded in sequence position, and
every remaining channel is still processed with its counts accumulated. -/
theorem channel_failure_isolated (fetch : Channel → FetchResult) (now : Int)
    (db : DbState) (pre suf : List Channel) (c : Channel) (e : String)
    (h : (fetch c).failure = some e) :
    scrapeChannelsLoop fetch now db (pre ++ c :: suf) =
      ((scrapeChannelsLoop fetch now (scrapeChannelsLoop fetch now db pre).1 suf).1,
       (scrapeChannelsLoop fetch now db pre).2.1 +
         (scrapeChannelsLoop fetch now (scrapeChannelsLoop fetch now db pre).1 suf).2.1,
       (scrapeChannelsLoop fetch now db pre).2.2.1 +
         (scrapeChannelsLoop fetch now (scrapeChannelsLoop fetch now db pre).1 suf).2.2.1,
       (scrapeChannelsLoop fetch now db pre).2.2.2 ++
         (c.title ++ ": " ++ e) ::
           (scrapeChannelsLoop fetch now
             (scrapeChannelsLoop fetch now db pre).1 suf).2.2.2) := by
  rw [scrapeChannelsLoop_append fetch now pre (c :: suf) db]
  have hc := scrape_channel_fail c (fetch c) now (scrapeChannelsLoop fetch now db pre).1 e h
  simp [scrapeChannelsLoop, hc]

/-- First witness channel. -/
def demoCh1 : Channel := ⟨1, 101, "alpha", true, none, none⟩

/-- The failing witness channel. -/
def demoCh2 : Channel := ⟨2, 102, "beta", true, none, none⟩

/-- Third witness channel. -/
def demoCh3 : Channel := ⟨3, 103, "gamma", true, none, none⟩

/-- A fetch in which exactly the channel with database id 2 raises. -/
def demoFetch : Channel → FetchResult :=
  fun c => if c.id == 2 then ⟨[], some "boom"⟩ else ⟨[], none⟩

/-- The witness store. -/
def demoDb : DbState := ⟨[demoCh1, demoCh2, demoCh3], []⟩

theorem channel_failure_isolated_witness :
    (demoFetch demoCh2).failure = some "boom" ∧
    scrapeChannelsLoop demoFetch 0 demoDb ([demoCh1] ++ demoCh2 :: [demoCh3]) =
      ((scrapeChannelsLoop demoFetch 0
          (scrapeChannelsLoop demoFetch 0 demoDb [demoCh1]).1 [demoCh3]).1,
       (scrapeChannelsLoop demoFetch 0 demoDb [demoCh1]).2.1 +
         (scrapeChannelsLoop demoFetch 0
           (scrapeChannelsLoop demoFetch 0 demoDb [demoCh1]).1 [demoCh3]).2.1,
       (scrapeChannelsLoop demoFetch 0 demoDb [demoCh1]).2.2.1 +
         (scrapeChannelsLoop demoFetch 0
           (scrapeChannelsLoop demoFetch 0 demoDb [demoCh1]).1 [demoCh3]).2.2.1,
       (scrapeChannelsLoop demoFetch 0 demoDb [demoCh1]).2.2.2 ++
         (demoCh2.title ++ ": " ++ "boom") ::
           (scrapeChannelsLoop demoFetch 0
             (scrapeChannelsLoop demoFetch 0 demoDb [demoCh1]).1 [demoCh3]).2.2.2) :=
  ⟨rfl, channel_failure_isolated demoFetch 0 demoDb [demoCh1] [demoCh3] demoCh2 "boom" rfl⟩

end FFScraper
